import Mathlib

/-!
Verification of the three object-oriented teaching modules of the repository
(tienda online, biblioteca, hotel) against their natural-language
specification.  The Python classes are shallowly embedded: objects become
structures, mutation becomes explicit state passing, the heap of `Producto`
objects referenced from carts and orders becomes a list updated in place by
identity, `datetime` values become integers (seconds), and fallible methods
return their updated state together with the boolean the source returns.
Prices and money amounts are modelled with rationals.
-/

/-! ### Time model

A `datetime` is a number of seconds.  `timedelta(days = n)` is `n * 86400`
seconds, and the `.days` attribute of a `timedelta` floor-divides the span by
the length of a day, matching the normalisation Python applies. -/

abbrev Fecha := Int

def segundosPorDia : Int := 86400

/-- Embedding of `timedelta(days = n)`. -/
def diasDelta (n : Int) : Int := n * segundosPorDia

/-- Embedding of the `.days` attribute of a `timedelta` (floor division). -/
def deltaDias (delta : Int) : Int := delta.fdiv segundosPorDia

/-! ### tienda.py -/

inductive EstadoPedido where
  | PENDIENTE
  | PROCESANDO
  | ENVIADO
  | ENTREGADO
  | CANCELADO
deriving DecidableEq

structure Producto where
  id_producto : Nat
  nombre : String
  descripcion : String
  precio : ℚ
  stock : Int
  categoria : String
deriving DecidableEq

def Producto.reducir_stock (p : Producto) (cantidad : Int) : Producto × Bool :=
  if cantidad ≤ p.stock then ({ p with stock := p.stock - cantidad }, true)
  else (p, false)

def Producto.aumentar_stock (p : Producto) (cantidad : Int) : Producto :=
  { p with stock := p.stock + cantidad }

def Producto.esta_disponible (p : Producto) (cantidad : Int) : Bool :=
  decide (p.stock ≥ cantidad)

/-- A cart or order line.  The source `ItemCarrito` holds a reference to a
`Producto` object; the reference is embedded as the product identity,
resolved against the list of live `Producto` objects. -/
structure ItemCarrito where
  id_producto : Nat
  cantidad : Int
deriving DecidableEq

/-- Resolution of a `Producto` reference: first object with the given
identity, in list order. -/
def findProd : List Producto → Nat → Option Producto
  | [], _ => none
  | p :: ps, i => if p.id_producto == i then some p else findProd ps i

/-- In-place mutation of the first `Producto` object with the given
identity, leaving every other object untouched. -/
def updProd : List Producto → Nat → (Producto → Producto) → List Producto
  | [], _, _ => []
  | p :: ps, i, f => if p.id_producto == i then f p :: ps else p :: updProd ps i f

/-- Embedding of `ItemCarrito.calcular_subtotal`: the referenced product's
current price times the quantity.  In the source the reference always
resolves; a dangling identity is given subtotal 0. -/
def ItemCarrito.calcular_subtotal (productos : List Producto) (it : ItemCarrito) : ℚ :=
  match findProd productos it.id_producto with
  | some p => p.precio * (it.cantidad : ℚ)
  | none => 0

/-- The merging scan inside `CarritoCompras.agregar_producto`: if a line for
the product identity exists, its quantity is incremented, otherwise a new
line is appended. -/
def agregarItem (i : Nat) (cantidad : Int) : List ItemCarrito → List ItemCarrito
  | [] => [⟨i, cantidad⟩]
  | it :: rest =>
    if it.id_producto == i then { it with cantidad := it.cantidad + cantidad } :: rest
    else it :: agregarItem i cantidad rest

/-- Embedding of `CarritoCompras.agregar_producto`.  The cart is its list of
items; the owning client plays no role in the method. -/
def CarritoCompras.agregar_producto (items : List ItemCarrito) (producto : Producto)
    (cantidad : Int) : List ItemCarrito × Bool :=
  if !(producto.esta_disponible cantidad) then (items, false)
  else (agregarItem producto.id_producto cantidad items, true)

structure Pedido where
  id_pedido : Nat
  id_cliente : Nat
  items : List ItemCarrito
  estado : EstadoPedido
  fecha_pedido : Fecha
  total : ℚ
deriving DecidableEq

/-- Embedding of `Pedido.__init__`: the item list is copied (lists are
values here), the state starts as `PENDIENTE`, and the total is the sum of
the line subtotals at creation time. -/
def Pedido.crear (productos : List Producto) (id_pedido id_cliente : Nat)
    (items : List ItemCarrito) (now : Fecha) : Pedido :=
  { id_pedido := id_pedido
    id_cliente := id_cliente
    items := items
    estado := EstadoPedido.PENDIENTE
    fecha_pedido := now
    total := (items.map (ItemCarrito.calcular_subtotal productos)).sum }

def Pedido.cambiar_estado (p : Pedido) (nuevo_estado : EstadoPedido) : Pedido :=
  { p with estado := nuevo_estado }

structure Tienda where
  nombre : String
  productos : List Producto
  pedidos : List Pedido
deriving DecidableEq

/-- One iteration of the checkout loop: `item.producto.reducir_stock
(item.cantidad)`, performed on the live object the line references. -/
def reducirLinea (productos : List Producto) (it : ItemCarrito) : List Producto × Bool :=
  match findProd productos it.id_producto with
  | some p =>
    let r := p.reducir_stock it.cantidad
    (updProd productos it.id_producto (fun _ => r.1), r.2)
  | none => (productos, false)

/-- The checkout loop of `Tienda.crear_pedido`: lines are processed in
order; the loop stops at the first line whose stock reduction fails, keeping
the reductions already performed. -/
def reducirTodos : List Producto → List ItemCarrito → List Producto × Bool
  | productos, [] => (productos, true)
  | productos, it :: rest =>
    match reducirLinea productos it with
    | (productos2, true) => reducirTodos productos2 rest
    | (productos2, false) => (productos2, false)

/-- Embedding of `Tienda.crear_pedido`.  Returns the updated store, the
state of the cart after the call, and the created order if any. -/
def Tienda.crear_pedido (t : Tienda) (id_pedido id_cliente : Nat)
    (carrito : List ItemCarrito) (now : Fecha) : Tienda × List ItemCarrito × Option Pedido :=
  if carrito.isEmpty then (t, carrito, none)
  else
    match reducirTodos t.productos carrito with
    | (productos2, false) => ({ t with productos := productos2 }, carrito, none)
    | (productos2, true) =>
      let pedido := Pedido.crear productos2 id_pedido id_cliente carrito now
      ({ t with productos := productos2, pedidos := t.pedidos ++ [pedido] }, [], some pedido)

/-- Embedding of a price change performed from client code after orders were
created: an attribute assignment `producto.precio = nuevo` on a product
referenced from the store's catalogue. -/
def Tienda.ponPrecio (t : Tienda) (i : Nat) (nuevo : ℚ) : Tienda :=
  { t with productos := updProd t.productos i (fun p => { p with precio := nuevo }) }

/-- Sufficiency of a single cart line against the current stock of the
product it references, the check `reducir_stock` performs. -/
def lineaSuficiente (productos : List Producto) (it : ItemCarrito) : Bool :=
  match findProd productos it.id_producto with
  | some p => decide (it.cantidad ≤ p.stock)
  | none => false

/-- Sufficiency of every cart line against the stock levels at the start of
the checkout. -/
def todasSuficientes (productos : List Producto) (carrito : List ItemCarrito) : Bool :=
  carrito.all (lineaSuficiente productos)

/-! ### biblioteca.py -/

inductive EstadoLibro where
  | DISPONIBLE
  | PRESTADO
  | MANTENIMIENTO
deriving DecidableEq

inductive Genero where
  | FICCION
  | NO_FICCION
  | CIENCIA
  | HISTORIA
  | INFANTIL
  | POESIA
  | DRAMA
deriving DecidableEq

structure Libro where
  isbn : String
  titulo : String
  autor : String
  genero : Genero
  anio_publicacion : Int
  numero_copias : Int
  estado : EstadoLibro
deriving DecidableEq

def Libro.prestar_copia (l : Libro) : Libro × Bool :=
  if 0 < l.numero_copias then
    let l2 := { l with numero_copias := l.numero_copias - 1 }
    (if l2.numero_copias == 0 then { l2 with estado := EstadoLibro.PRESTADO } else l2, true)
  else (l, false)

def Libro.devolver_copia (l : Libro) : Libro :=
  let l2 := { l with numero_copias := l.numero_copias + 1 }
  if 0 < l2.numero_copias then { l2 with estado := EstadoLibro.DISPONIBLE } else l2

def Libro.esta_disponible (l : Libro) : Bool :=
  decide (0 < l.numero_copias)

def DIAS_PRESTAMO : Int := 14

def MAX_RENOVACIONES : Nat := 2

structure Prestamo where
  id_prestamo : Nat
  id_miembro : Nat
  isbn : String
  fecha_prestamo : Fecha
  fecha_vencimiento : Fecha
  fecha_devolucion : Option Fecha
  renovaciones : Nat
deriving DecidableEq

/-- Embedding of `Prestamo.__init__` at time `now`. -/
def Prestamo.crear (id_prestamo id_miembro : Nat) (isbn : String) (now : Fecha) : Prestamo :=
  { id_prestamo := id_prestamo
    id_miembro := id_miembro
    isbn := isbn
    fecha_prestamo := now
    fecha_vencimiento := now + diasDelta DIAS_PRESTAMO
    fecha_devolucion := none
    renovaciones := 0 }

def Prestamo.renovar (p : Prestamo) (now : Fecha) : Prestamo × Bool :=
  if p.renovaciones < MAX_RENOVACIONES then
    ({ p with renovaciones := p.renovaciones + 1
              fecha_vencimiento := now + diasDelta DIAS_PRESTAMO }, true)
  else (p, false)

def Prestamo.devolver (p : Prestamo) (now : Fecha) : Prestamo :=
  { p with fecha_devolucion := some now }

/-- Embedding of `Prestamo.esta_vencido`: a returned loan is never overdue,
an active one is overdue when `now` is strictly past the due date. -/
def Prestamo.esta_vencido (p : Prestamo) (now : Fecha) : Bool :=
  match p.fecha_devolucion with
  | some _ => false
  | none => decide (p.fecha_vencimiento < now)

def TARIFA_DIARIA : ℚ := 3 / 2

structure Multa where
  id_multa : Nat
  id_prestamo : Nat
  monto : ℚ
  pagada : Bool
  fecha_creacion : Fecha
deriving DecidableEq

/-- Embedding of `Multa.__init__`: the amount is the number of late days
times the daily rate 1.50. -/
def Multa.crear (id_multa id_prestamo : Nat) (dias_retraso : Int) (now : Fecha) : Multa :=
  { id_multa := id_multa
    id_prestamo := id_prestamo
    monto := (dias_retraso : ℚ) * TARIFA_DIARIA
    pagada := false
    fecha_creacion := now }

/-- The catalogue is the insertion-ordered dictionary ISBN to `Libro`. -/
structure Biblioteca where
  nombre : String
  libros : List (String × Libro)
  prestamos : List Prestamo
  multas : List Multa
deriving DecidableEq

/-- Dictionary lookup on the catalogue. -/
def buscarIsbn : List (String × Libro) → String → Option Libro
  | [], _ => none
  | e :: rest, isbn => if e.1 == isbn then some e.2 else buscarIsbn rest isbn

/-- In-place mutation of the catalogue entry under the given ISBN. -/
def actualizaIsbn : List (String × Libro) → String → (Libro → Libro) → List (String × Libro)
  | [], _, _ => []
  | e :: rest, isbn, f =>
    if e.1 == isbn then (e.1, f e.2) :: rest else e :: actualizaIsbn rest isbn f

/-- Embedding of `Biblioteca.agregar_libro`: an ISBN already in the
catalogue gets the new object's copies added to the registered book,
otherwise the book is inserted under its ISBN. -/
def Biblioteca.agregar_libro (b : Biblioteca) (libro : Libro) : Biblioteca :=
  if (buscarIsbn b.libros libro.isbn).isSome then
    { b with libros := (actualizaIsbn b.libros libro.isbn
        (fun l => { l with numero_copias := l.numero_copias + libro.numero_copias })) }
  else
    { b with libros := b.libros ++ [(libro.isbn, libro)] }

/-- The linear scan of `Biblioteca.devolver_libro` over the loan list,
threading the catalogue and fine collection.  Faithful to the source order:
`prestamo.devolver()` stamps the return date before `esta_vencido()` is
evaluated on the same object. -/
def devolverLibroAux (id_prestamo : Nat) (now : Fecha) (id_multa : Nat)
    (libros : List (String × Libro)) (multas : List Multa) :
    List Prestamo → List Prestamo × List (String × Libro) × List Multa × Bool
  | [] => ([], libros, multas, false)
  | p :: rest =>
    if p.id_prestamo == id_prestamo then
      if p.fecha_devolucion.isSome then (p :: rest, libros, multas, false)
      else
        let p2 := p.devolver now
        let libros2 := actualizaIsbn libros p.isbn Libro.devolver_copia
        if p2.esta_vencido now then
          let dias_retraso := deltaDias (now - p2.fecha_vencimiento)
          (p2 :: rest, libros2, multas ++ [Multa.crear id_multa p2.id_prestamo dias_retraso now], true)
        else
          (p2 :: rest, libros2, multas, true)
    else
      let r := devolverLibroAux id_prestamo now id_multa libros multas rest
      (p :: r.1, r.2.1, r.2.2.1, r.2.2.2)

/-- Embedding of `Biblioteca.devolver_libro` at time `now`, with `id_multa`
the identity the next fine would receive. -/
def Biblioteca.devolver_libro (b : Biblioteca) (id_prestamo : Nat) (now : Fecha)
    (id_multa : Nat) : Biblioteca × Bool :=
  let r := devolverLibroAux id_prestamo now id_multa b.libros b.multas b.prestamos
  ({ b with prestamos := r.1, libros := r.2.1, multas := r.2.2.1 }, r.2.2.2)

/-- The linear scan of `Biblioteca.renovar_prestamo` over the loan list. -/
def renovarPrestamoAux (id_prestamo : Nat) (now : Fecha) :
    List Prestamo → List Prestamo × Bool
  | [] => ([], false)
  | p :: rest =>
    if p.id_prestamo == id_prestamo then
      if p.fecha_devolucion.isSome then (p :: rest, false)
      else
        let r := p.renovar now
        (r.1 :: rest, r.2)
    else
      let r := renovarPrestamoAux id_prestamo now rest
      (p :: r.1, r.2)

/-- Embedding of `Biblioteca.renovar_prestamo` at time `now`. -/
def Biblioteca.renovar_prestamo (b : Biblioteca) (id_prestamo : Nat) (now : Fecha) :
    Biblioteca × Bool :=
  let r := renovarPrestamoAux id_prestamo now b.prestamos
  ({ b with prestamos := r.1 }, r.2)

/-! ### hotel.py -/

structure Habitacion where
  numero : Nat
  tipo : String
  precio_noche : ℚ
  disponible : Bool
deriving DecidableEq

def Habitacion.marcar_ocupada (h : Habitacion) : Habitacion :=
  { h with disponible := false }

def Habitacion.marcar_disponible (h : Habitacion) : Habitacion :=
  { h with disponible := true }

structure Huesped where
  nombre : String
  email : String
  telefono : String
  documento : String
deriving DecidableEq

structure Reserva where
  id_reserva : Nat
  huesped : Huesped
  numero_habitacion : Nat
  fecha_entrada : Fecha
  fecha_salida : Fecha
  estado : String
  fecha_reserva : Fecha
deriving DecidableEq

/-- Embedding of `Reserva.__init__` at time `now`: the state starts as
confirmed. -/
def Reserva.crear (id_reserva : Nat) (huesped : Huesped) (numero_habitacion : Nat)
    (fecha_entrada fecha_salida now : Fecha) : Reserva :=
  { id_reserva := id_reserva
    huesped := huesped
    numero_habitacion := numero_habitacion
    fecha_entrada := fecha_entrada
    fecha_salida := fecha_salida
    estado := "confirmada"
    fecha_reserva := now }

def Reserva.calcular_noches (r : Reserva) : Int :=
  deltaDias (r.fecha_salida - r.fecha_entrada)

/-- Embedding of `Reserva.cancelar`, which mutates both the reservation and
the room object it references (passed explicitly). -/
def Reserva.cancelar (r : Reserva) (hab : Habitacion) : Reserva × Habitacion :=
  ({ r with estado := "cancelada" }, hab.marcar_disponible)

/-- Embedding of `Reserva.completar`, which mutates both the reservation and
the room object it references (passed explicitly). -/
def Reserva.completar (r : Reserva) (hab : Habitacion) : Reserva × Habitacion :=
  ({ r with estado := "completada" }, hab.marcar_disponible)

structure Hotel where
  nombre : String
  habitaciones : List Habitacion
  reservas : List Reserva
deriving DecidableEq

/-- Embedding of `Hotel.realizar_reserva`: fails on an occupied room or a
check-out date not strictly after the check-in date; on success the room is
marked occupied and the reservation appended. -/
def Hotel.realizar_reserva (h : Hotel) (huesped : Huesped) (hab : Habitacion)
    (fecha_entrada fecha_salida now : Fecha) (id_reserva : Nat) :
    Hotel × Habitacion × Option Reserva :=
  if !hab.disponible then (h, hab, none)
  else if fecha_salida ≤ fecha_entrada then (h, hab, none)
  else
    let r := Reserva.crear id_reserva huesped hab.numero fecha_entrada fecha_salida now
    ({ h with reservas := h.reservas ++ [r] }, hab.marcar_ocupada, some r)

/-! ### Concrete fixtures used by counterexamples and witnesses -/

def productoUno : Producto :=
  { id_producto := 1, nombre := "Laptop", descripcion := "d", precio := 10,
    stock := 1, categoria := "E" }

def productoDos : Producto :=
  { id_producto := 2, nombre := "Mouse", descripcion := "d", precio := 3,
    stock := 0, categoria := "E" }

/-- Store for the checkout counterexample: one unit of product 1, none of
product 2. -/
def tiendaCex : Tienda :=
  { nombre := "T", productos := [productoUno, productoDos], pedidos := [] }

def productoTres : Producto :=
  { id_producto := 1, nombre := "Teclado", descripcion := "d", precio := 7,
    stock := 5, categoria := "E" }

def productoCuatro : Producto :=
  { id_producto := 2, nombre := "Monitor", descripcion := "d", precio := 20,
    stock := 7, categoria := "E" }

/-- Store with ample stock, for the successful checkout witness. -/
def tiendaOk : Tienda :=
  { nombre := "T", productos := [productoTres, productoCuatro], pedidos := [] }

def carritoOk : List ItemCarrito := [⟨1, 2⟩, ⟨2, 7⟩]

def libroCex : Libro :=
  { isbn := "L1", titulo := "T", autor := "A", genero := Genero.FICCION,
    anio_publicacion := 1999, numero_copias := 0, estado := EstadoLibro.PRESTADO }

/-- Active loan of `libroCex`, due 14 days after time 0. -/
def prestamoCex : Prestamo :=
  { id_prestamo := 1, id_miembro := 1, isbn := "L1", fecha_prestamo := 0,
    fecha_vencimiento := diasDelta 14, fecha_devolucion := none, renovaciones := 0 }

def bibliotecaCex : Biblioteca :=
  { nombre := "B", libros := [("L1", libroCex)], prestamos := [prestamoCex], multas := [] }

def libroNuevo : Libro :=
  { isbn := "L1", titulo := "T2", autor := "A2", genero := Genero.CIENCIA,
    anio_publicacion := 2000, numero_copias := 4, estado := EstadoLibro.DISPONIBLE }

/-- Loan already returned one day after its due date. -/
def prestamoDevuelto : Prestamo :=
  { id_prestamo := 1, id_miembro := 1, isbn := "L1", fecha_prestamo := 0,
    fecha_vencimiento := diasDelta 14, fecha_devolucion := some (diasDelta 15),
    renovaciones := 0 }

def bibliotecaDev : Biblioteca :=
  { nombre := "B", libros := [("L1", libroCex)], prestamos := [prestamoDevuelto],
    multas := [] }

def huespedUno : Huesped :=
  { nombre := "Juan", email := "j", telefono := "t", documento := "d" }

def habitacionLibre : Habitacion :=
  { numero := 101, tipo := "simple", precio_noche := 50, disponible := true }

def habitacionOcupada : Habitacion :=
  { numero := 101, tipo := "simple", precio_noche := 50, disponible := false }

/-- Reservation already in the terminal state completed. -/
def reservaCompletada : Reserva :=
  { id_reserva := 1001, huesped := huespedUno, numero_habitacion := 101,
    fecha_entrada := 0, fecha_salida := diasDelta 5, estado := "completada",
    fecha_reserva := 0 }

/-- Reservation already in the terminal state cancelled. -/
def reservaCancelada : Reserva :=
  { id_reserva := 1002, huesped := huespedUno, numero_habitacion := 101,
    fecha_entrada := 0, fecha_salida := diasDelta 5, estado := "cancelada",
    fecha_reserva := 0 }

def hotelUno : Hotel :=
  { nombre := "H", habitaciones := [habitacionLibre], reservas := [] }

def libroDosCopias : Libro :=
  { isbn := "L2", titulo := "T", autor := "A", genero := Genero.DRAMA,
    anio_publicacion := 2001, numero_copias := 2, estado := EstadoLibro.DISPONIBLE }

/-! ### Basic facts about the resource operations -/

lemma prestar_copia_copias (l : Libro) :
    (Libro.prestar_copia l).1.numero_copias =
      if 0 < l.numero_copias then l.numero_copias - 1 else l.numero_copias := by
  by_cases h : 0 < l.numero_copias
  · simp only [Libro.prestar_copia, if_pos h]
    split <;> rfl
  · simp only [Libro.prestar_copia, if_neg h]

lemma prestar_copia_ok (l : Libro) :
    (Libro.prestar_copia l).2 = decide (0 < l.numero_copias) := by
  by_cases h : 0 < l.numero_copias <;>
    simp only [Libro.prestar_copia, h, if_pos, if_neg, decide_eq_true_eq] <;> simp [h]

lemma devolver_copia_copias (l : Libro) :
    (Libro.devolver_copia l).numero_copias = l.numero_copias + 1 := by
  simp only [Libro.devolver_copia]
  split <;> rfl

/-- C4: starting from a nonnegative copy count or stock, each of
`prestar_copia`, `devolver_copia`, `reducir_stock` with a nonnegative amount
and `aumentar_stock` with a nonnegative amount leaves the capacity
nonnegative. -/
theorem capacidad_no_negativa (l : Libro) (p : Producto) (c d : Int)
    (hl : 0 ≤ l.numero_copias) (hp : 0 ≤ p.stock) (hc : 0 ≤ c) (hd : 0 ≤ d) :
    0 ≤ (Libro.prestar_copia l).1.numero_copias ∧
    0 ≤ (Libro.devolver_copia l).numero_copias ∧
    0 ≤ (Producto.reducir_stock p c).1.stock ∧
    0 ≤ (Producto.aumentar_stock p d).stock := by
  refine ⟨?_, ?_, ?_, ?_⟩
  · rw [prestar_copia_copias]
    split <;> omega
  · rw [devolver_copia_copias]
    omega
  · unfold Producto.reducir_stock
    split <;> dsimp only <;> omega
  · unfold Producto.aumentar_stock
    dsimp only
    omega

/-- Witness for C4 at a concrete book and product. -/
theorem capacidad_no_negativa_witness :
    (0 ≤ libroCex.numero_copias ∧ 0 ≤ productoUno.stock ∧ (0:Int) ≤ 1 ∧ (0:Int) ≤ 2) ∧
    (0 ≤ (Libro.prestar_copia libroCex).1.numero_copias ∧
      0 ≤ (Libro.devolver_copia libroCex).numero_copias ∧
      0 ≤ (Producto.reducir_stock productoUno 1).1.stock ∧
      0 ≤ (Producto.aumentar_stock productoUno 2).stock) :=
  ⟨⟨by decide, by decide, by decide, by decide⟩,
    capacidad_no_negativa libroCex productoUno 1 2 (by decide) (by decide) (by decide) (by decide)⟩

/-- C7: two successful copy loans followed by two returns restore the copy
count, and a successful stock reduction by `n` followed by a stock increase
by `n` restores the stock. -/
theorem adquirir_liberar_inverso (l : Libro) (p : Producto) (n : Int)
    (hl : 2 ≤ l.numero_copias) (hn : 0 ≤ n) (hs : n ≤ p.stock) :
    (Libro.prestar_copia l).2 = true ∧
    (Libro.prestar_copia (Libro.prestar_copia l).1).2 = true ∧
    (Libro.devolver_copia (Libro.devolver_copia
        (Libro.prestar_copia (Libro.prestar_copia l).1).1)).numero_copias
      = l.numero_copias ∧
    (Producto.reducir_stock p n).2 = true ∧
    (Producto.aumentar_stock (Producto.reducir_stock p n).1 n).stock = p.stock := by
  have h1 := prestar_copia_copias l
  have h2 := prestar_copia_copias (Libro.prestar_copia l).1
  refine ⟨?_, ?_, ?_, ?_, ?_⟩
  · rw [prestar_copia_ok]
    simp only [decide_eq_true_eq]
    omega
  · rw [prestar_copia_ok]
    simp only [decide_eq_true_eq, h1]
    split <;> omega
  · rw [devolver_copia_copias, devolver_copia_copias, h2, h1]
    split_ifs <;> omega
  · unfold Producto.reducir_stock
    simp [hs]
  · have hsn : p.stock - n + n = p.stock := by omega
    simp [Producto.reducir_stock, Producto.aumentar_stock, hs, hsn]

/-- Witness for C7 at a concrete book with two copies and a concrete
product. -/
theorem adquirir_liberar_inverso_witness :
    (2 ≤ libroDosCopias.numero_copias ∧ (0:Int) ≤ 3 ∧ 3 ≤ productoTres.stock) ∧
    ((Libro.prestar_copia libroDosCopias).2 = true ∧
      (Libro.prestar_copia (Libro.prestar_copia libroDosCopias).1).2 = true ∧
      (Libro.devolver_copia (Libro.devolver_copia
          (Libro.prestar_copia (Libro.prestar_copia libroDosCopias).1).1)).numero_copias
        = libroDosCopias.numero_copias ∧
      (Producto.reducir_stock productoTres 3).2 = true ∧
      (Producto.aumentar_stock (Producto.reducir_stock productoTres 3).1 3).stock
        = productoTres.stock) :=
  ⟨⟨by decide, by decide, by decide⟩,
    adquirir_liberar_inverso libroDosCopias productoTres 3 (by decide) (by decide) (by decide)⟩

/-- C5: on an active loan with no renewals yet, `renovar` succeeds exactly
twice, each success incrementing the counter and resetting the due date to
now plus 14 days, and the third call fails leaving the loan unchanged. -/
theorem renovar_dos_veces (p : Prestamo) (now1 now2 now3 : Fecha)
    (hdev : p.fecha_devolucion = none) (hren : p.renovaciones = 0) :
    (Prestamo.renovar p now1).2 = true ∧
    (Prestamo.renovar p now1).1.renovaciones = 1 ∧
    (Prestamo.renovar p now1).1.fecha_vencimiento = now1 + diasDelta DIAS_PRESTAMO ∧
    (Prestamo.renovar (Prestamo.renovar p now1).1 now2).2 = true ∧
    (Prestamo.renovar (Prestamo.renovar p now1).1 now2).1.renovaciones = 2 ∧
    (Prestamo.renovar (Prestamo.renovar p now1).1 now2).1.fecha_vencimiento
      = now2 + diasDelta DIAS_PRESTAMO ∧
    (Prestamo.renovar (Prestamo.renovar (Prestamo.renovar p now1).1 now2).1 now3).2 = false ∧
    (Prestamo.renovar (Prestamo.renovar (Prestamo.renovar p now1).1 now2).1 now3).1
      = (Prestamo.renovar (Prestamo.renovar p now1).1 now2).1 := by
  simp [Prestamo.renovar, MAX_RENOVACIONES, hren]

/-- Witness for C5 on a concrete active loan. -/
theorem renovar_dos_veces_witness :
    (prestamoCex.fecha_devolucion = none ∧ prestamoCex.renovaciones = 0) ∧
    (Prestamo.renovar (Prestamo.renovar prestamoCex 5).1 10).1.renovaciones = 2 ∧
    (Prestamo.renovar (Prestamo.renovar (Prestamo.renovar prestamoCex 5).1 10).1 15).2
      = false := by
  have h := renovar_dos_veces prestamoCex 5 10 15 (by decide) (by decide)
  exact ⟨⟨rfl, rfl⟩, h.2.2.2.2.1, h.2.2.2.2.2.2.1⟩

/-- C6: on an available room, `realizar_reserva` with a check-out date not
strictly after the check-in date returns no reservation and changes nothing,
while a valid date range yields a confirmed reservation, marks the room
occupied and appends the reservation to the collection. -/
theorem realizar_reserva_valida (h : Hotel) (hue : Huesped) (hab : Habitacion)
    (fe fs now : Fecha) (idr : Nat) (hdisp : hab.disponible = true) :
    (fs ≤ fe → Hotel.realizar_reserva h hue hab fe fs now idr = (h, hab, none)) ∧
    (fe < fs →
      Hotel.realizar_reserva h hue hab fe fs now idr =
        ({ h with reservas := h.reservas ++ [Reserva.crear idr hue hab.numero fe fs now] },
          Habitacion.marcar_ocupada hab,
          some (Reserva.crear idr hue hab.numero fe fs now)) ∧
      (Reserva.crear idr hue hab.numero fe fs now).estado = "confirmada" ∧
      (Habitacion.marcar_ocupada hab).disponible = false) := by
  constructor
  · intro hle
    simp [Hotel.realizar_reserva, hdisp, hle]
  · intro hlt
    refine ⟨?_, rfl, rfl⟩
    simp [Hotel.realizar_reserva, hdisp, not_le.mpr hlt]

/-- Witness for C6 on a concrete hotel, guest and available room. -/
theorem realizar_reserva_valida_witness :
    habitacionLibre.disponible = true ∧
    (Hotel.realizar_reserva hotelUno huespedUno habitacionLibre 0 (diasDelta 5) 0 1000 =
        ({ hotelUno with reservas := hotelUno.reservas ++
            [Reserva.crear 1000 huespedUno habitacionLibre.numero 0 (diasDelta 5) 0] },
          Habitacion.marcar_ocupada habitacionLibre,
          some (Reserva.crear 1000 huespedUno habitacionLibre.numero 0 (diasDelta 5) 0)) ∧
      (Reserva.crear 1000 huespedUno habitacionLibre.numero 0 (diasDelta 5) 0).estado
        = "confirmada" ∧
      (Habitacion.marcar_ocupada habitacionLibre).disponible = false) := by
  have h := realizar_reserva_valida hotelUno huespedUno habitacionLibre 0 (diasDelta 5) 0 1000
    (by decide)
  exact ⟨rfl, h.2 (by decide)⟩

/-- C8: an order's total is the sum of its line subtotals at creation time,
the snapshot of the lines is kept, `cambiar_estado` does not touch the total
or the lines, and a later price change on the catalogue does not touch the
order collection. -/
theorem pedido_total_fijo (productos : List Producto) (idp idc : Nat)
    (items : List ItemCarrito) (now : Fecha) (e : EstadoPedido) (t : Tienda)
    (j : Nat) (q : ℚ) :
    (Pedido.crear productos idp idc items now).total
      = (items.map (ItemCarrito.calcular_subtotal productos)).sum ∧
    (Pedido.crear productos idp idc items now).items = items ∧
    (Pedido.cambiar_estado (Pedido.crear productos idp idc items now) e).total
      = (Pedido.crear productos idp idc items now).total ∧
    (Pedido.cambiar_estado (Pedido.crear productos idp idc items now) e).items
      = (Pedido.crear productos idp idc items now).items ∧
    (Tienda.ponPrecio t j q).pedidos = t.pedidos :=
  ⟨rfl, rfl, rfl, rfl, rfl⟩

/-- A stored order total is not recomputed: after a price change the live
per-line subtotals sum to a different value than the stored total. -/
theorem total_almacenado_vs_recalculado :
    (Pedido.crear tiendaOk.productos 5000 1000 carritoOk 0).total = 154 ∧
    (carritoOk.map
        (ItemCarrito.calcular_subtotal (Tienda.ponPrecio tiendaOk 1 100).productos)).sum
      = 340 := by
  refine ⟨?_, ?_⟩ <;>
    norm_num [Pedido.crear, ItemCarrito.calcular_subtotal, findProd, updProd,
      Tienda.ponPrecio, tiendaOk, carritoOk, productoTres, productoCuatro]

lemma agregarItem_en_carrito (i : Nat) (c q : Int) (post pre : List ItemCarrito)
    (hpre : ∀ it ∈ pre, it.id_producto ≠ i) :
    agregarItem i c (pre ++ ⟨i, q⟩ :: post) = pre ++ ⟨i, q + c⟩ :: post := by
  induction pre with
  | nil => simp [agregarItem]
  | cons it rest ih =>
    have hit : it.id_producto ≠ i := hpre it (List.mem_cons_self it rest)
    simp only [List.cons_append, agregarItem, beq_iff_eq, hit, if_false]
    exact congrArg (it :: ·) (ih fun x hx => hpre x (List.mem_cons_of_mem it hx))

/-- C9: adding a product already present in the cart only checks the newly
requested quantity against the current stock and merges the quantities, so
the merged line can exceed the stock; the product itself is not touched. -/
theorem agregar_producto_ignora_acumulado (pre post : List ItemCarrito) (producto : Producto)
    (q c : Int) (hpre : ∀ it ∈ pre, it.id_producto ≠ producto.id_producto)
    (hc : Producto.esta_disponible producto c = true) :
    CarritoCompras.agregar_producto (pre ++ ⟨producto.id_producto, q⟩ :: post) producto c
      = (pre ++ ⟨producto.id_producto, q + c⟩ :: post, true) := by
  unfold CarritoCompras.agregar_producto
  rw [hc]
  simp only [Bool.not_true, Bool.false_eq_true, if_false]
  rw [agregarItem_en_carrito producto.id_producto c q post pre hpre]

/-- Witness for C9: stock 5, four units already in the cart, three more are
accepted, leaving a line of seven units. -/
theorem agregar_producto_ignora_acumulado_witness :
    Producto.esta_disponible productoTres 3 = true ∧
    productoTres.stock < 4 + 3 ∧
    CarritoCompras.agregar_producto ([] ++ ⟨productoTres.id_producto, 4⟩ :: []) productoTres 3
      = ([] ++ ⟨productoTres.id_producto, 4 + 3⟩ :: [], true) :=
  ⟨by decide, by decide,
    agregar_producto_ignora_acumulado [] [] productoTres 4 3 (by decide) (by decide)⟩

/-! ### Returning loans: the fine branch and terminal states -/

lemma esta_vencido_tras_devolver (p : Prestamo) (now : Fecha) :
    Prestamo.esta_vencido (Prestamo.devolver p now) now = false := rfl

lemma devolverLibroAux_multas (idp : Nat) (now : Fecha) (idm : Nat)
    (libros : List (String × Libro)) (multas : List Multa) (prestamos : List Prestamo) :
    (devolverLibroAux idp now idm libros multas prestamos).2.2.1 = multas := by
  induction prestamos with
  | nil => rfl
  | cons p rest ih =>
    by_cases hid : (p.id_prestamo == idp) = true
    · by_cases hdev : p.fecha_devolucion.isSome = true
      · simp [devolverLibroAux, hid, hdev]
      · simp [devolverLibroAux, hid, hdev, esta_vencido_tras_devolver]
    · simp [devolverLibroAux, hid, ih]

/-- The fine branch of `devolver_libro` is unreachable: the return date is
stamped by `devolver()` before `esta_vencido()` is consulted, and a stamped
loan is never considered overdue, so the fine collection never grows. -/
theorem devolver_libro_nunca_crea_multa (b : Biblioteca) (idp : Nat) (now : Fecha)
    (idm : Nat) :
    (Biblioteca.devolver_libro b idp now idm).1.multas = b.multas := by
  simp [Biblioteca.devolver_libro, devolverLibroAux_multas]

/-- C2: at the failing input, an active loan three days past its due date is
returned successfully, yet the fine collection stays empty instead of
receiving a 4.50 fine. -/
theorem devolver_libro_vencido_sin_multa :
    Prestamo.esta_vencido prestamoCex (diasDelta 17) = true ∧
    (Biblioteca.devolver_libro bibliotecaCex 1 (diasDelta 17) 1).2 = true ∧
    (Biblioteca.devolver_libro bibliotecaCex 1 (diasDelta 17) 1).1.multas = [] := by
  refine ⟨by decide, by decide, by decide⟩

lemma devolverLibroAux_devuelto (idp : Nat) (now : Fecha) (idm : Nat)
    (libros : List (String × Libro)) (multas : List Multa) (prestamos : List Prestamo)
    (h : ∀ p ∈ prestamos, p.id_prestamo = idp → p.fecha_devolucion.isSome = true) :
    devolverLibroAux idp now idm libros multas prestamos
      = (prestamos, libros, multas, false) := by
  induction prestamos with
  | nil => rfl
  | cons p rest ih =>
    by_cases hid : (p.id_prestamo == idp) = true
    · have hp := h p (List.mem_cons_self p rest) (by simpa using hid)
      simp [devolverLibroAux, hid, hp]
    · simp [devolverLibroAux, hid,
        ih fun x hx hxx => h x (List.mem_cons_of_mem p hx) hxx]

/-- C3 amended: returning an already returned loan fails and leaves the
library unchanged, while `Reserva.cancelar` and `Reserva.completar` perform
no terminal-state check at all: whatever the current state, they
unconditionally set the state and mark the room available. -/
theorem operacion_terminal_sin_efecto (b : Biblioteca) (idp : Nat) (now : Fecha)
    (idm : Nat) (r : Reserva) (hab : Habitacion)
    (hdev : ∀ p ∈ b.prestamos, p.id_prestamo = idp → p.fecha_devolucion.isSome = true) :
    Biblioteca.devolver_libro b idp now idm = (b, false) ∧
    (Reserva.cancelar r hab).1.estado = "cancelada" ∧
    (Reserva.cancelar r hab).2.disponible = true ∧
    (Reserva.completar r hab).1.estado = "completada" ∧
    (Reserva.completar r hab).2.disponible = true := by
  refine ⟨?_, rfl, rfl, rfl, rfl⟩
  have hx := devolverLibroAux_devuelto idp now idm b.libros b.multas b.prestamos hdev
  simp [Biblioteca.devolver_libro, hx]

/-- C3 counterexample: cancelling a reservation that is already completed
changes its state to cancelled and flips the room from occupied to
available, contradicting the claim that terminal reservations are left
unchanged. -/
theorem reserva_terminal_cex :
    reservaCompletada.estado = "completada" ∧
    (Reserva.cancelar reservaCompletada habitacionOcupada).1.estado ≠ "completada" ∧
    (Reserva.cancelar reservaCompletada habitacionOcupada).2.disponible
      ≠ habitacionOcupada.disponible := by
  refine ⟨rfl, by decide, by decide⟩

/-- Witness for C3 on a returned loan and an already cancelled
reservation. -/
theorem operacion_terminal_sin_efecto_witness :
    (∀ p ∈ bibliotecaDev.prestamos, p.id_prestamo = 1 → p.fecha_devolucion.isSome = true) ∧
    Biblioteca.devolver_libro bibliotecaDev 1 (diasDelta 20) 7 = (bibliotecaDev, false) ∧
    (Reserva.cancelar reservaCancelada habitacionOcupada).1.estado = "cancelada" ∧
    (Reserva.cancelar reservaCancelada habitacionOcupada).2.disponible = true ∧
    (Reserva.completar reservaCancelada habitacionOcupada).1.estado = "completada" ∧
    (Reserva.completar reservaCancelada habitacionOcupada).2.disponible = true := by
  have h := operacion_terminal_sin_efecto bibliotecaDev 1 (diasDelta 20) 7
    reservaCancelada habitacionOcupada (by decide)
  exact ⟨by decide, h.1, h.2.1, h.2.2.1, h.2.2.2.1, h.2.2.2.2⟩

/-! ### The catalogue dictionary -/

lemma buscarIsbn_actualiza_self (libros : List (String × Libro)) (isbn : String)
    (f : Libro → Libro) :
    buscarIsbn (actualizaIsbn libros isbn f) isbn = (buscarIsbn libros isbn).map f := by
  induction libros with
  | nil => rfl
  | cons e rest ih =>
    by_cases he : (e.1 == isbn) = true
    · simp [actualizaIsbn, buscarIsbn, he]
    · simp [actualizaIsbn, buscarIsbn, he, ih]

lemma buscarIsbn_actualiza_ne (libros : List (String × Libro)) (isbn isbn2 : String)
    (f : Libro → Libro) (h : isbn2 ≠ isbn) :
    buscarIsbn (actualizaIsbn libros isbn f) isbn2 = buscarIsbn libros isbn2 := by
  induction libros with
  | nil => rfl
  | cons e rest ih =>
    by_cases he : (e.1 == isbn) = true
    · have he' : e.1 = isbn := by simpa using he
      have he2 : (e.1 == isbn2) = false := by
        rw [he']
        simp only [beq_eq_false_iff_ne]
        exact Ne.symm h
      simp [actualizaIsbn, buscarIsbn, he, he2]
    · simp [actualizaIsbn, buscarIsbn, he, ih]

lemma actualizaIsbn_longitud (libros : List (String × Libro)) (isbn : String)
    (f : Libro → Libro) :
    (actualizaIsbn libros isbn f).length = libros.length := by
  induction libros with
  | nil => rfl
  | cons e rest ih => by_cases he : (e.1 == isbn) = true <;> simp [actualizaIsbn, he, ih]

/-- C10: adding a book whose ISBN is already in the catalogue adds its
copies to the registered book, leaving the registered book's other
attributes, the rest of the catalogue and the catalogue size unchanged; a
fresh ISBN is inserted under its ISBN. -/
theorem agregar_libro_fusiona (b : Biblioteca) (libro : Libro) :
    (∀ viejo, buscarIsbn b.libros libro.isbn = some viejo →
      buscarIsbn (Biblioteca.agregar_libro b libro).libros libro.isbn
        = some { viejo with numero_copias := viejo.numero_copias + libro.numero_copias } ∧
      (∀ isbn2, isbn2 ≠ libro.isbn →
        buscarIsbn (Biblioteca.agregar_libro b libro).libros isbn2
          = buscarIsbn b.libros isbn2) ∧
      (Biblioteca.agregar_libro b libro).libros.length = b.libros.length) ∧
    (buscarIsbn b.libros libro.isbn = none →
      (Biblioteca.agregar_libro b libro).libros = b.libros ++ [(libro.isbn, libro)]) := by
  constructor
  · intro viejo hv
    have hsome : (buscarIsbn b.libros libro.isbn).isSome = true := by rw [hv]; rfl
    unfold Biblioteca.agregar_libro
    rw [if_pos hsome]
    refine ⟨?_, ?_, ?_⟩
    · dsimp only
      rw [buscarIsbn_actualiza_self, hv]
      rfl
    · intro isbn2 h2
      dsimp only
      rw [buscarIsbn_actualiza_ne _ _ _ _ h2]
    · dsimp only
      rw [actualizaIsbn_longitud]
  · intro hn
    unfold Biblioteca.agregar_libro
    rw [if_neg (by rw [hn]; simp)]

/-- Witness for C10: a second batch of four copies under an ISBN already in
the catalogue is merged into the registered book. -/
theorem agregar_libro_fusiona_witness :
    buscarIsbn bibliotecaCex.libros libroNuevo.isbn = some libroCex ∧
    buscarIsbn (Biblioteca.agregar_libro bibliotecaCex libroNuevo).libros libroNuevo.isbn
      = some { libroCex with
          numero_copias := libroCex.numero_copias + libroNuevo.numero_copias } ∧
    (Biblioteca.agregar_libro bibliotecaCex libroNuevo).libros.length
      = bibliotecaCex.libros.length := by
  have h := (agregar_libro_fusiona bibliotecaCex libroNuevo).1 libroCex (by decide)
  exact ⟨by decide, h.1, h.2.2⟩

/-! ### The checkout loop -/

lemma findProd_id (prods : List Producto) (i : Nat) (p : Producto)
    (h : findProd prods i = some p) : p.id_producto = i := by
  induction prods with
  | nil => cases h
  | cons q ps ih =>
    by_cases hq : (q.id_producto == i) = true
    · simp only [findProd, hq, if_true, Option.some.injEq] at h
      subst h
      simpa using hq
    · simp only [findProd, hq, if_false] at h
      exact ih h

lemma findProd_updProd_ne (prods : List Producto) (i j : Nat) (f : Producto → Producto)
    (hf : ∀ p : Producto, p.id_producto = i → (f p).id_producto = i) (hij : j ≠ i) :
    findProd (updProd prods i f) j = findProd prods j := by
  induction prods with
  | nil => rfl
  | cons p ps ih =>
    by_cases hp : (p.id_producto == i) = true
    · have hp' : p.id_producto = i := by simpa using hp
      have h1 : ((f p).id_producto == j) = false := by
        rw [hf p hp']
        simp only [beq_eq_false_iff_ne]
        exact Ne.symm hij
      have h2 : (p.id_producto == j) = false := by
        rw [hp']
        simp only [beq_eq_false_iff_ne]
        exact Ne.symm hij
      simp [updProd, findProd, hp, h1, h2]
    · simp [updProd, findProd, hp, ih]

lemma findProd_updProd_self (prods : List Producto) (i : Nat) (f : Producto → Producto)
    (hf : ∀ p : Producto, p.id_producto = i → (f p).id_producto = i) :
    findProd (updProd prods i f) i = (findProd prods i).map f := by
  induction prods with
  | nil => rfl
  | cons p ps ih =>
    by_cases hp : (p.id_producto == i) = true
    · have hp' : p.id_producto = i := by simpa using hp
      have hfp : ((f p).id_producto == i) = true := by simp [hf p hp']
      simp [updProd, findProd, hp, hfp]
    · simp [updProd, findProd, hp, ih]

lemma updProd_const (prods : List Producto) (i : Nat) (p : Producto)
    (hp : findProd prods i = some p) :
    updProd prods i (fun _ => p) = prods := by
  induction prods with
  | nil => rfl
  | cons q ps ih =>
    by_cases hq : (q.id_producto == i) = true
    · have hqp : q = p := by simpa [findProd, hq] using hp
      subst hqp
      simp [updProd, hq]
    · simp only [findProd, hq, if_false] at hp
      simp [updProd, hq, ih hp]

lemma reducirLinea_exito (prods : List Producto) (it : ItemCarrito) (p : Producto)
    (hp : findProd prods it.id_producto = some p) (hs : it.cantidad ≤ p.stock) :
    reducirLinea prods it =
      (updProd prods it.id_producto
        (fun _ => { p with stock := p.stock - it.cantidad }), true) := by
  simp [reducirLinea, hp, Producto.reducir_stock, hs]

lemma reducirLinea_fallo (prods : List Producto) (it : ItemCarrito) (p : Producto)
    (hp : findProd prods it.id_producto = some p) (hs : ¬ it.cantidad ≤ p.stock) :
    reducirLinea prods it = (prods, false) := by
  simp [reducirLinea, hp, Producto.reducir_stock, hs, updProd_const prods it.id_producto p hp]

lemma reducirLinea_sin_producto (prods : List Producto) (it : ItemCarrito)
    (hp : findProd prods it.id_producto = none) :
    reducirLinea prods it = (prods, false) := by
  simp [reducirLinea, hp]

lemma lineaSuficiente_congr (prods prods2 : List Producto) (x : ItemCarrito)
    (h : findProd prods2 x.id_producto = findProd prods x.id_producto) :
    lineaSuficiente prods2 x = lineaSuficiente prods x := by
  simp only [lineaSuficiente, h]

lemma reducirTodos_exito (carrito : List ItemCarrito) :
    ∀ prods : List Producto,
      (∀ it ∈ carrito, (findProd prods it.id_producto).isSome = true) →
      (carrito.map ItemCarrito.id_producto).Nodup →
      todasSuficientes prods carrito = true →
      (reducirTodos prods carrito).2 = true ∧
      (∀ it ∈ carrito,
        findProd (reducirTodos prods carrito).1 it.id_producto
          = (findProd prods it.id_producto).map
              (fun p => { p with stock := p.stock - it.cantidad })) ∧
      (∀ j, j ∉ carrito.map ItemCarrito.id_producto →
        findProd (reducirTodos prods carrito).1 j = findProd prods j) := by
  induction carrito with
  | nil =>
    intro prods _ _ _
    exact ⟨rfl, by simp, fun j _ => rfl⟩
  | cons it rest ih =>
    intro prods hmem hnodup hsuf
    simp only [todasSuficientes, List.all_cons, Bool.and_eq_true] at hsuf
    simp only [List.map_cons, List.nodup_cons] at hnodup
    obtain ⟨p, hp⟩ : ∃ p, findProd prods it.id_producto = some p := by
      have h0 := hmem it (List.mem_cons_self it rest)
      cases hfp : findProd prods it.id_producto with
      | none => rw [hfp] at h0; cases h0
      | some p => exact ⟨p, rfl⟩
    have hsuf_it : it.cantidad ≤ p.stock := by
      have h1 := hsuf.1
      rw [lineaSuficiente, hp] at h1
      simpa using h1
    have hpid : p.id_producto = it.id_producto := findProd_id prods it.id_producto p hp
    have hf : ∀ q : Producto, q.id_producto = it.id_producto →
        ((fun _ : Producto => { p with stock := p.stock - it.cantidad })
          q).id_producto = it.id_producto := fun q _ => hpid
    have hred : reducirTodos prods (it :: rest)
        = reducirTodos
            (updProd prods it.id_producto
              (fun _ => { p with stock := p.stock - it.cantidad })) rest := by
      rw [reducirTodos, reducirLinea_exito prods it p hp hsuf_it]
    set prods2 := updProd prods it.id_producto
      (fun _ => { p with stock := p.stock - it.cantidad }) with hprods2
    have hself : findProd prods2 it.id_producto
        = some { p with stock := p.stock - it.cantidad } := by
      rw [hprods2, findProd_updProd_self prods it.id_producto _ hf, hp]
      rfl
    have hne : ∀ j, j ≠ it.id_producto → findProd prods2 j = findProd prods j :=
      fun j hj => findProd_updProd_ne prods it.id_producto j _ hf hj
    have hrestid : ∀ x ∈ rest, x.id_producto ≠ it.id_producto := by
      intro x hx he
      exact hnodup.1 (he ▸ List.mem_map_of_mem ItemCarrito.id_producto hx)
    have hmem2 : ∀ x ∈ rest, (findProd prods2 x.id_producto).isSome = true := by
      intro x hx
      rw [hne x.id_producto (hrestid x hx)]
      exact hmem x (List.mem_cons_of_mem it hx)
    have hsuf2 : todasSuficientes prods2 rest = true := by
      rw [todasSuficientes, List.all_eq_true]
      intro x hx
      rw [lineaSuficiente_congr prods prods2 x (hne x.id_producto (hrestid x hx))]
      exact List.all_eq_true.mp hsuf.2 x hx
    obtain ⟨ht, hfin, hfr⟩ := ih prods2 hmem2 hnodup.2 hsuf2
    rw [hred]
    refine ⟨ht, ?_, ?_⟩
    · intro x hx
      rcases List.mem_cons.mp hx with hx1 | hx2
      · subst hx1
        rw [hfr x.id_producto (by simpa using hrestid), hself, hp]
        rfl
      · rw [hfin x hx2, hne x.id_producto (hrestid x hx2)]
    · intro j hj
      simp only [List.map_cons, List.mem_cons, not_or] at hj
      rw [hfr j (by simpa using hj.2), hne j hj.1]

lemma reducirTodos_fallo (carrito : List ItemCarrito) :
    ∀ prods : List Producto,
      (carrito.map ItemCarrito.id_producto).Nodup →
      todasSuficientes prods carrito = false →
      (reducirTodos prods carrito).2 = false := by
  induction carrito with
  | nil =>
    intro prods _ h
    simp [todasSuficientes] at h
  | cons it rest ih =>
    intro prods hnodup hsuf
    simp only [List.map_cons, List.nodup_cons] at hnodup
    cases hfp : findProd prods it.id_producto with
    | none =>
      rw [reducirTodos, reducirLinea_sin_producto prods it hfp]
    | some p =>
      by_cases hs : it.cantidad ≤ p.stock
      · have hpid : p.id_producto = it.id_producto := findProd_id prods it.id_producto p hfp
        have hf : ∀ q : Producto, q.id_producto = it.id_producto →
            ((fun _ : Producto => { p with stock := p.stock - it.cantidad })
              q).id_producto = it.id_producto := fun q _ => hpid
        have hne : ∀ j, j ≠ it.id_producto →
            findProd (updProd prods it.id_producto
                (fun _ => { p with stock := p.stock - it.cantidad })) j
              = findProd prods j :=
          fun j hj => findProd_updProd_ne prods it.id_producto j _ hf hj
        have hrestid : ∀ x ∈ rest, x.id_producto ≠ it.id_producto := by
          intro x hx he
          exact hnodup.1 (he ▸ List.mem_map_of_mem ItemCarrito.id_producto hx)
        have hit : lineaSuficiente prods it = true := by
          rw [lineaSuficiente, hfp]
          simpa using hs
        have hsufrest : todasSuficientes prods rest = false := by
          simp only [todasSuficientes, List.all_cons, hit, Bool.true_and] at hsuf
          exact hsuf
        have hrest2 : todasSuficientes (updProd prods it.id_producto
            (fun _ => { p with stock := p.stock - it.cantidad })) rest = false := by
          cases h2 : todasSuficientes (updProd prods it.id_producto
              (fun _ => { p with stock := p.stock - it.cantidad })) rest with
          | false => rfl
          | true =>
            exfalso
            have hall : todasSuficientes prods rest = true := by
              rw [todasSuficientes, List.all_eq_true]
              intro x hx
              rw [← lineaSuficiente_congr prods _ x (hne x.id_producto (hrestid x hx))]
              exact List.all_eq_true.mp h2 x hx
            rw [hall] at hsufrest
            cases hsufrest
        rw [reducirTodos, reducirLinea_exito prods it p hfp hs]
        exact ih _ hnodup.2 hrest2
      · rw [reducirTodos, reducirLinea_fallo prods it p hfp hs]

/-- C1 amended: for a non-empty cart of distinct live products, if every
line is within stock then checkout reduces each product's stock by its line
quantity, leaves other products alone, appends exactly one order and empties
the cart; if some line exceeds stock, checkout returns no order, appends
nothing and keeps the cart, but the stock reductions already performed for
the lines before the failing one are kept (no rollback). -/
theorem crear_pedido_comportamiento (t : Tienda) (carrito : List ItemCarrito)
    (idp idc : Nat) (now : Fecha)
    (hne : carrito ≠ [])
    (hmem : ∀ it ∈ carrito, (findProd t.productos it.id_producto).isSome = true)
    (hnodup : (carrito.map ItemCarrito.id_producto).Nodup) :
    (todasSuficientes t.productos carrito = true →
      (Tienda.crear_pedido t idp idc carrito now).2.2
        = some (Pedido.crear (reducirTodos t.productos carrito).1 idp idc carrito now) ∧
      (Tienda.crear_pedido t idp idc carrito now).1.pedidos
        = t.pedidos
            ++ [Pedido.crear (reducirTodos t.productos carrito).1 idp idc carrito now] ∧
      (Tienda.crear_pedido t idp idc carrito now).2.1 = [] ∧
      (∀ it ∈ carrito,
        findProd (Tienda.crear_pedido t idp idc carrito now).1.productos it.id_producto
          = (findProd t.productos it.id_producto).map
              (fun p => { p with stock := p.stock - it.cantidad })) ∧
      (∀ j, j ∉ carrito.map ItemCarrito.id_producto →
        findProd (Tienda.crear_pedido t idp idc carrito now).1.productos j
          = findProd t.productos j)) ∧
    (todasSuficientes t.productos carrito = false →
      (Tienda.crear_pedido t idp idc carrito now).2.2 = none ∧
      (Tienda.crear_pedido t idp idc carrito now).1.pedidos = t.pedidos ∧
      (Tienda.crear_pedido t idp idc carrito now).2.1 = carrito) := by
  have hne' : carrito.isEmpty = false := by
    cases carrito with
    | nil => exact absurd rfl hne
    | cons a l => rfl
  constructor
  · intro hsuf
    obtain ⟨ht, hfin, hfr⟩ := reducirTodos_exito carrito t.productos hmem hnodup hsuf
    rcases hr : reducirTodos t.productos carrito with ⟨prods2, ok⟩
    rw [hr] at ht hfin hfr
    subst ht
    have hcp : Tienda.crear_pedido t idp idc carrito now
        = ({ t with
              productos := prods2
              pedidos := t.pedidos ++ [Pedido.crear prods2 idp idc carrito now] },
            [], some (Pedido.crear prods2 idp idc carrito now)) := by
      simp [Tienda.crear_pedido, hne', hr]
    rw [hcp]
    exact ⟨rfl, rfl, rfl, hfin, hfr⟩
  · intro hsuf
    have hf2 := reducirTodos_fallo carrito t.productos hnodup hsuf
    rcases hr : reducirTodos t.productos carrito with ⟨prods2, ok⟩
    rw [hr] at hf2
    subst hf2
    have hcp : Tienda.crear_pedido t idp idc carrito now
        = ({ t with productos := prods2 }, carrito, none) := by
      simp [Tienda.crear_pedido, hne', hr]
    rw [hcp]
    exact ⟨rfl, rfl, rfl⟩

/-- C1 counterexample: with one unit of product 1 and none of product 2, a
cart asking for one of each makes the checkout fail (no order, cart kept),
yet the stock of product 1 has been decremented from 1 to 0 — the claimed
all-or-nothing behaviour does not hold. -/
theorem crear_pedido_no_atomico :
    (Tienda.crear_pedido tiendaCex 5000 1000 [⟨1, 1⟩, ⟨2, 1⟩] 0).2.2 = none ∧
    (Tienda.crear_pedido tiendaCex 5000 1000 [⟨1, 1⟩, ⟨2, 1⟩] 0).2.1 = [⟨1, 1⟩, ⟨2, 1⟩] ∧
    (Tienda.crear_pedido tiendaCex 5000 1000 [⟨1, 1⟩, ⟨2, 1⟩] 0).1.pedidos = [] ∧
    lineaSuficiente tiendaCex.productos ⟨2, 1⟩ = false ∧
    (findProd tiendaCex.productos 1).map Producto.stock = some 1 ∧
    (findProd (Tienda.crear_pedido tiendaCex 5000 1000 [⟨1, 1⟩, ⟨2, 1⟩] 0).1.productos 1).map
        Producto.stock = some 0 := by
  refine ⟨by decide, by decide, by decide, by decide, by decide, by decide⟩

/-- Witness for C1 on a store with ample stock: checkout succeeds, empties
the cart and appends the order. -/
theorem crear_pedido_comportamiento_witness :
    carritoOk ≠ [] ∧
    (∀ it ∈ carritoOk, (findProd tiendaOk.productos it.id_producto).isSome = true) ∧
    (carritoOk.map ItemCarrito.id_producto).Nodup ∧
    todasSuficientes tiendaOk.productos carritoOk = true ∧
    (Tienda.crear_pedido tiendaOk 5000 1000 carritoOk 0).2.1 = [] ∧
    (Tienda.crear_pedido tiendaOk 5000 1000 carritoOk 0).1.pedidos
      = tiendaOk.pedidos
          ++ [Pedido.crear (reducirTodos tiendaOk.productos carritoOk).1 5000 1000 carritoOk 0] := by
  have h := crear_pedido_comportamiento tiendaOk carritoOk 5000 1000 0
    (by decide) (by decide) (by decide)
  have h2 := h.1 (by decide)
  exact ⟨by decide, by decide, by decide, by decide, h2.2.2.1, h2.2.1⟩
